import Mathlib

/-!
Verification development for the weather-app offline caching subsystem.

The definitions below are a shallow embedding of the JavaScript sources:
  * `src/weather-app/src/js/services/cache.js`      (class `CacheService`)
  * `src/weather-app/src/js/services/weather-service.js`
      (class `WeatherService` and class `OpenMeteoService`)
  * `src/weather-app/src/js/services/geocoding.js`  (class `GeocodingService`)
  * `src/weather-app/src/js/utils/error.js`         (function `retry`)

Modelling conventions:
  * Epoch-millisecond timestamps are `Nat`; the JavaScript value `Infinity`
    (used for the `setting` TTL) is the `TimeVal.inf` constructor.
  * Cached payloads are a type parameter `δ`; in the app they are processed
    JSON objects, which are never `null`/falsy, so an absent value is `none`.
  * `JSON.stringify`-based sizes are an explicit function parameter
    (`sz`, `itemLen`) since JSON serialization is opaque to the model.
  * Console logging, the external `storageService` mirror and corrupted
    localStorage records are side channels no claim observes; they are
    not modelled (noted where relevant).
  * Fallible backend operations return `Except String`; the injected
    failure flags (`Failures`) model the IndexedDB backend rejecting.
-/

deriving instance DecidableEq for Except

/-- A JavaScript timestamp / TTL value: a finite number of milliseconds or
`Infinity` (`setting` entries never expire). -/
inductive TimeVal where
  | fin : Nat → TimeVal
  | inf : TimeVal
deriving DecidableEq, Repr

/-- The cache record written by `CacheService.set`
(`{id, data, type, timestamp, expires, size}` in cache.js). -/
structure CacheEntry (δ : Type) where
  id : String
  data : δ
  type : String
  timestamp : Nat
  expires : TimeVal
  size : Nat
deriving DecidableEq, Repr

/-- Association list keyed by strings: the contents of one IndexedDB object
store (records keyed by `keyPath: 'id'`) or of localStorage. -/
def alGet {β : Type} : List (String × β) → String → Option β
  | [], _ => none
  | (k, v) :: t, key => if k = key then some v else alGet t key

/-- Remove every binding of `key` (object-store / localStorage delete). -/
def alErase {β : Type} : List (String × β) → String → List (String × β)
  | [], _ => []
  | (k, v) :: t, key => if k = key then alErase t key else (k, v) :: alErase t key

/-- Insert-or-replace a binding (`objectStore.put` / `localStorage.setItem`). -/
def alPut {β : Type} (l : List (String × β)) (key : String) (v : β) :
    List (String × β) :=
  (key, v) :: alErase l key

namespace CacheService

/-- The four IndexedDB object stores created by the `CacheService`
constructor (`this.stores` values `weather-data`, `location-data`,
`image-cache`, `app-settings`). -/
inductive StoreName where
  | weatherData
  | locationData
  | imageCache
  | appSettings
deriving DecidableEq, Repr

/-- `this.stores`: the map from store keys to object stores. Note the map
keys are `weather`, `locations`, `images`, `settings` (three of them
plural), exactly as in the source. -/
def stores : List (String × StoreName) :=
  [("weather", .weatherData), ("locations", .locationData),
   ("images", .imageCache), ("settings", .appSettings)]

/-- `this.expirationTimes`: default TTLs per cache type (all keys singular). -/
def expirationTimes : List (String × TimeVal) :=
  [("weather", .fin 600000), ("forecast", .fin 1800000),
   ("location", .fin 3600000), ("search", .fin 3600000),
   ("image", .fin 86400000), ("setting", .inf)]

/-- `this.expirationTimes.weather` (10 minutes), the final fallback of the
TTL lookup chain in `set`. -/
def weatherTTL : TimeVal := .fin 600000

/-- `getStore(type)`: `this.stores[type] || this.stores.weather`.
A type absent from the `stores` map falls back to the weather store. -/
def getStore (type : String) : StoreName :=
  match stores.lookup type with
  | some n => n
  | none => .weatherData

/-- JavaScript truthiness of a TTL value: the number `0` is falsy
(`Infinity` and every other number are truthy). -/
def ttlTruthy : TimeVal → Bool
  | .fin 0 => false
  | _ => true

/-- JavaScript `a || b` on an optional TTL value: `b` when `a` is absent
(`null`/`undefined`) or falsy. -/
def jsOrTTL (a : Option TimeVal) (b : TimeVal) : TimeVal :=
  match a with
  | some t => if ttlTruthy t then t else b
  | none => b

/-- The TTL chain in `set`:
`customTTL || this.expirationTimes[type] || this.expirationTimes.weather`. -/
def resolveTTL (customTTL : Option TimeVal) (type : String) : TimeVal :=
  jsOrTTL customTTL (jsOrTTL (expirationTimes.lookup type) weatherTTL)

/-- `expires` in `set`: `ttl === Infinity ? Infinity : now + ttl`. -/
def computeExpires (now : Nat) (ttl : TimeVal) : TimeVal :=
  match ttl with
  | .inf => .inf
  | .fin n => .fin (now + n)

/-- The expiration test used by `get`, `getLocalStorage`, `getStoreStats`
and `cleanupStore`: `expires !== Infinity && now > expires`. -/
def entryExpired {δ : Type} (e : CacheEntry δ) (now : Nat) : Bool :=
  match e.expires with
  | .inf => false
  | .fin t => now > t

/-- Contents of the four IndexedDB object stores of `WeatherAppCache`. -/
structure IDB (δ : Type) where
  weatherData : List (String × CacheEntry δ)
  locationData : List (String × CacheEntry δ)
  imageCache : List (String × CacheEntry δ)
  appSettings : List (String × CacheEntry δ)
deriving DecidableEq, Repr

def emptyIDB {δ : Type} : IDB δ := ⟨[], [], [], []⟩

def IDB.getObjectStore {δ : Type} (db : IDB δ) : StoreName → List (String × CacheEntry δ)
  | .weatherData => db.weatherData
  | .locationData => db.locationData
  | .imageCache => db.imageCache
  | .appSettings => db.appSettings

def IDB.setObjectStore {δ : Type} (db : IDB δ) (n : StoreName)
    (l : List (String × CacheEntry δ)) : IDB δ :=
  match n with
  | .weatherData => { db with weatherData := l }
  | .locationData => { db with locationData := l }
  | .imageCache => { db with imageCache := l }
  | .appSettings => { db with appSettings := l }

/-- Injected failure profile for the primary (IndexedDB) backend.
`openFails` makes `init` reject (so the service falls back to
localStorage); the other flags make the corresponding IndexedDB requests
reject. -/
structure Failures where
  openFails : Bool
  putFails : Bool
  getFails : Bool
  deleteFails : Bool
  clearFails : Bool
deriving DecidableEq, Repr

def noFail : Failures := ⟨false, false, false, false, false⟩

/-- State of the cache service after initialization settled:
`useLocalStorage` is set when `init` fell back, `db` is the IndexedDB
contents, `ls` the localStorage contents (keys carry the `cache_` name
used by `setLocalStorage`; the stored JSON is modelled as the entry it
serializes, corruption is not modelled). -/
structure CacheState (δ : Type) where
  useLocalStorage : Bool
  db : IDB δ
  ls : List (String × CacheEntry δ)
deriving DecidableEq, Repr

/-- IndexedDB `objectStore.get` request, with injected read failure. -/
def idbGet {δ : Type} (fb : Failures) (l : List (String × CacheEntry δ))
    (key : String) : Except String (Option (CacheEntry δ)) :=
  if fb.getFails then .error "read failed" else .ok (alGet l key)

/-- IndexedDB `objectStore.put` request, with injected write failure. -/
def idbPut {δ : Type} (fb : Failures) (l : List (String × CacheEntry δ))
    (e : CacheEntry δ) : Except String (List (String × CacheEntry δ)) :=
  if fb.putFails then .error "write failed" else .ok (alPut l e.id e)

/-- IndexedDB `objectStore.delete` request, with injected failure. -/
def idbDelete {δ : Type} (fb : Failures) (l : List (String × CacheEntry δ))
    (key : String) : Except String (List (String × CacheEntry δ)) :=
  if fb.deleteFails then .error "delete failed" else .ok (alErase l key)

/-- IndexedDB `objectStore.clear` request, with injected failure. -/
def idbClear {δ : Type} (fb : Failures) :
    Except String (List (String × CacheEntry δ)) :=
  if fb.clearFails then .error "clear failed" else .ok []

/-- Result of a fire-and-forget promise: `get` calls `this.delete(...)`
without awaiting it, so a rejection leaves the state unchanged. -/
def ignoreThrown {β : Type} : Except String β → β → β
  | .ok b, _ => b
  | .error _, d => d

/-- Whether a public-method promise fulfilled (`ok`) rather than rejected. -/
def jsSettled {β : Type} : Except String β → Bool
  | .ok _ => true
  | .error _ => false

/-- `setLocalStorage(key, cacheEntry)`: `localStorage.setItem('cache_'+key, …)`. -/
def setLocalStorage {δ : Type} (ls : List (String × CacheEntry δ)) (key : String)
    (e : CacheEntry δ) : List (String × CacheEntry δ) :=
  alPut ls ("cache_" ++ key) e

/-- `getLocalStorage(key)`: read `'cache_'+key`, remove and miss when the
entry is expired, otherwise return its `data`. Returns the possibly
mutated localStorage alongside the result. -/
def getLocalStorage {δ : Type} (ls : List (String × CacheEntry δ)) (key : String)
    (now : Nat) : Option δ × List (String × CacheEntry δ) :=
  match alGet ls ("cache_" ++ key) with
  | none => (none, ls)
  | some e =>
    if entryExpired e now then (none, alErase ls ("cache_" ++ key))
    else (some e.data, ls)

/-- `set(key, data, type, customTTL)`: compute the TTL and expiry, build the
cache entry, and write it to the active backend; an IndexedDB write failure
is caught and routed to `setLocalStorage` (never rethrown). `sz` stands for
`calculateSize` (`JSON.stringify(data).length * 2`). -/
def set {δ : Type} (fb : Failures) (s : CacheState δ) (key : String) (data : δ)
    (type : String) (customTTL : Option TimeVal) (sz : δ → Nat) (now : Nat) :
    Except String (CacheState δ) :=
  let ttl := resolveTTL customTTL type
  let expires := computeExpires now ttl
  let cacheEntry : CacheEntry δ := ⟨key, data, type, now, expires, sz data⟩
  if s.useLocalStorage then
    .ok { s with ls := setLocalStorage s.ls key cacheEntry }
  else
    match idbPut fb (s.db.getObjectStore (getStore type)) cacheEntry with
    | .ok l' => .ok { s with db := s.db.setObjectStore (getStore type) l' }
    | .error _ => .ok { s with ls := setLocalStorage s.ls key cacheEntry }

/-- `delete(key, type)`: remove the entry from the active backend; an
IndexedDB failure is caught and only logged (no fallback delete). -/
def delete {δ : Type} (fb : Failures) (s : CacheState δ) (key type : String) :
    Except String (CacheState δ) :=
  if s.useLocalStorage then
    .ok { s with ls := alErase s.ls ("cache_" ++ key) }
  else
    match idbDelete fb (s.db.getObjectStore (getStore type)) key with
    | .ok l' => .ok { s with db := s.db.setObjectStore (getStore type) l' }
    | .error _ => .ok s

/-- `get(key, type)`: read from the active backend; a missing entry is a
miss, an expired entry is lazily deleted (fire-and-forget `this.delete`)
and reported as a miss; an IndexedDB read failure is caught and falls
back to `getLocalStorage`. -/
def get {δ : Type} (fb : Failures) (s : CacheState δ) (key type : String)
    (now : Nat) : Except String (Option δ × CacheState δ) :=
  if s.useLocalStorage then
    let r := getLocalStorage s.ls key now
    .ok (r.1, { s with ls := r.2 })
  else
    match idbGet fb (s.db.getObjectStore (getStore type)) key with
    | .error _ =>
      let r := getLocalStorage s.ls key now
      .ok (r.1, { s with ls := r.2 })
    | .ok none => .ok (none, s)
    | .ok (some cacheEntry) =>
      if entryExpired cacheEntry now then
        .ok (none, ignoreThrown (delete fb s key type) s)
      else
        .ok (some cacheEntry.data, s)

/-- `clearLocalStorageType(type)`: remove localStorage keys that start with
`cache_` and contain the type name as a substring. -/
def charsStartWith : List Char → List Char → Bool
  | _, [] => true
  | [], _ :: _ => false
  | a :: as, b :: bs => a == b && charsStartWith as bs

def charsContain : List Char → List Char → Bool
  | [], needle => charsStartWith [] needle
  | a :: t, needle => charsStartWith (a :: t) needle || charsContain t needle

/-- JavaScript `hay.includes(needle)` on strings. -/
def strContains (hay needle : String) : Bool :=
  charsContain hay.toList needle.toList

def clearLocalStorageType {δ : Type} (ls : List (String × CacheEntry δ))
    (type : String) : List (String × CacheEntry δ) :=
  ls.filter (fun p => !(p.1.startsWith "cache_" && strContains p.1 type))

/-- `clearType(type)`: clear one object store (or the matching localStorage
keys); an IndexedDB failure is caught and only logged. -/
def clearType {δ : Type} (fb : Failures) (s : CacheState δ) (type : String) :
    Except String (CacheState δ) :=
  if s.useLocalStorage then
    .ok { s with ls := clearLocalStorageType s.ls type }
  else
    match (idbClear fb : Except String (List (String × CacheEntry δ))) with
    | .ok l' => .ok { s with db := s.db.setObjectStore (getStore type) l' }
    | .error _ => .ok s

/-- `clearAll()`: clear every object store (or every `cache_`-keyed
localStorage entry); a failure of the clears is caught and only logged.
The single `clearFails` flag makes all four clear requests reject. -/
def clearAll {δ : Type} (fb : Failures) (s : CacheState δ) :
    Except String (CacheState δ) :=
  if s.useLocalStorage then
    .ok { s with ls := s.ls.filter (fun p => !(p.1.startsWith "cache_")) }
  else
    match (idbClear fb : Except String (List (String × CacheEntry δ))) with
    | .ok _ => .ok { s with db := emptyIDB }
    | .error _ => .ok s

/-- `Object.values(this.stores)` in iteration order. -/
def storeNamesList : List StoreName :=
  [.weatherData, .locationData, .imageCache, .appSettings]

/-- Per-store statistics accumulated by the `getStoreStats` cursor walk. -/
structure StoreStats where
  entries : Nat
  size : Nat
  expired : Nat
deriving DecidableEq, Repr

def getStoreStats {δ : Type} (l : List (String × CacheEntry δ)) (now : Nat) :
    StoreStats :=
  { entries := l.length
    size := (l.map (fun p => p.2.size)).sum
    expired := (l.filter (fun p => entryExpired p.2 now)).length }

/-- The totals of `getStats`. The per-namespace breakdown (`stats.stores`)
is omitted: no claim observes it and its shape differs between the two
backend modes. -/
structure CacheStats where
  totalEntries : Nat
  totalSize : Nat
  expiredEntries : Nat
deriving DecidableEq, Repr

/-- `getLocalStorageStats()`: statistics over `cache_`-keyed localStorage
entries; `itemLen` stands for the stored JSON string length
(`item.length`). Corrupted records (counted as expired by the source) are
not modelled. -/
def getLocalStorageStats {δ : Type} (ls : List (String × CacheEntry δ))
    (itemLen : CacheEntry δ → Nat) (now : Nat) : CacheStats :=
  let ck := ls.filter (fun p => p.1.startsWith "cache_")
  { totalEntries := ck.length
    totalSize := (ck.map (fun p => itemLen p.2 * 2)).sum
    expiredEntries := (ck.filter (fun p => entryExpired p.2 now)).length }

/-- `getStats()`: accumulate `getStoreStats` over the four object stores
(weather, locations, images, settings order), or delegate to
`getLocalStorageStats` in fallback mode. Read-only. -/
def getStats {δ : Type} (s : CacheState δ) (itemLen : CacheEntry δ → Nat)
    (now : Nat) : CacheStats :=
  if s.useLocalStorage then getLocalStorageStats s.ls itemLen now
  else
    let w := getStoreStats (s.db.getObjectStore .weatherData) now
    let lo := getStoreStats (s.db.getObjectStore .locationData) now
    let im := getStoreStats (s.db.getObjectStore .imageCache) now
    let se := getStoreStats (s.db.getObjectStore .appSettings) now
    { totalEntries := w.entries + lo.entries + im.entries + se.entries
      totalSize := w.size + lo.size + im.size + se.size
      expiredEntries := w.expired + lo.expired + im.expired + se.expired }

/-- `cleanupStore(storeName)`: cursor walk deleting the expired entries of
one store, returning how many were deleted. -/
def cleanupStore {δ : Type} (l : List (String × CacheEntry δ)) (now : Nat) :
    Nat × List (String × CacheEntry δ) :=
  ((l.filter (fun p => entryExpired p.2 now)).length,
   l.filter (fun p => !entryExpired p.2 now))

/-- The sweep loop of `cleanupExpiredEntries` over all four stores,
accumulating `totalCleaned`. -/
def sweepIDB {δ : Type} (db : IDB δ) (now : Nat) : Nat × IDB δ :=
  storeNamesList.foldl
    (fun acc n =>
      let c := cleanupStore (acc.2.getObjectStore n) now
      (acc.1 + c.1, acc.2.setObjectStore n c.2))
    (0, db)

/-- `cleanupLocalStorage()`: remove expired `cache_` entries and return the
count (corrupted-record removal not modelled). -/
def cleanupLocalStorage {δ : Type} (ls : List (String × CacheEntry δ))
    (now : Nat) : Nat × List (String × CacheEntry δ) :=
  ((ls.filter (fun p => p.1.startsWith "cache_" && entryExpired p.2 now)).length,
   ls.filter (fun p => !(p.1.startsWith "cache_" && entryExpired p.2 now)))

/-- `cleanupExpiredEntries()`: in fallback mode it returns
`cleanupLocalStorage()`'s count; in IndexedDB mode it sweeps every store
accumulating `totalCleaned`, logs it, and falls off the end of the `try`
block — the async function resolves `undefined` (modelled as `none`). -/
def cleanupExpiredEntries {δ : Type} (s : CacheState δ) (now : Nat) :
    Option Nat × CacheState δ :=
  if s.useLocalStorage then
    let c := cleanupLocalStorage s.ls now
    (some c.1, { s with ls := c.2 })
  else
    let c := sweepIDB s.db now
    (none, { s with db := c.2 })

/-- State after `init()` settled at time `now`: on a successful open the
object stores exist and `cleanupExpiredEntries` has run once on the fresh
database; on an open failure `fallbackToLocalStorage` sets
`useLocalStorage` and no cleanup runs. -/
def initState {δ : Type} (fb : Failures) (now : Nat) : CacheState δ :=
  if fb.openFails then { useLocalStorage := true, db := emptyIDB, ls := [] }
  else (cleanupExpiredEntries { useLocalStorage := false, db := emptyIDB, ls := [] } now).2

end CacheService

/-- An in-memory request-cache record `{data, timestamp}`, as stored by
`WeatherService.setCachedData`, `OpenMeteoService`'s `requestCache` and
`GeocodingService`'s `locationCache`. -/
structure TimedEntry (δ : Type) where
  data : δ
  timestamp : Nat
deriving DecidableEq, Repr

namespace WeatherService

/-- `this.cacheTimeout = 5 * 60 * 1000`. -/
def cacheTimeout : Nat := 300000

/-- The `this.cache` map of `WeatherService`. The `storageService` mirror
written by `saveCacheToStorage` belongs to an external collaborator and is
not modelled (it is never read back within one session except by
`loadCacheFromStorage` at init). -/
structure WSState (δ : Type) where
  cache : List (String × TimedEntry δ)
deriving DecidableEq, Repr

/-- `getCachedData(key, allowStale)`: miss on an absent key; a stale entry
(`now - timestamp > cacheTimeout`) is a miss unless `allowStale`;
otherwise return the cached `data`. (JavaScript number subtraction and
`Nat` truncated subtraction agree on the `>` comparison here: a future
timestamp yields a non-positive age in both.) -/
def getCachedData {δ : Type} (s : WSState δ) (key : String) (allowStale : Bool)
    (now : Nat) : Option δ :=
  match alGet s.cache key with
  | none => none
  | some cached =>
    if now - cached.timestamp > cacheTimeout ∧ allowStale = false then none
    else some cached.data

/-- `setCachedData(key, data)`: store `{data, timestamp: Date.now()}`. -/
def setCachedData {δ : Type} (s : WSState δ) (key : String) (data : δ)
    (now : Nat) : WSState δ :=
  { s with cache := alPut s.cache key ⟨data, now⟩ }

/-- Outcome of one `getCurrentWeather` call: its result, whether the
network pipeline was started, and the final cache state. -/
structure FetchOutcome (δ : Type) where
  result : Except String δ
  fetchAttempted : Bool
  finalState : WSState δ
deriving DecidableEq, Repr

/-- `getCurrentWeather(lat, lon, units, lang)`. The network pipeline
(`retryRequest(() => fetchWithTimeout(url, …))` from the absent
`api-helpers.js`, the `response.ok` check, `response.json()` and
`processCurrentWeatherData`) is abstracted as the oracle `fetchResult`,
its processed success value or thrown error; `he` stands for
`handleWeatherError`, applied to the error that is finally rethrown.
Cached payloads are processed weather objects, never `null`, so the
truthiness test `if (cached)` is the `some` test. -/
def getCurrentWeather {δ : Type} (s : WSState δ) (lat lon units lang : String)
    (fetchResult : Except String δ) (he : String → String) (now : Nat) :
    FetchOutcome δ :=
  let cacheKey := "current_" ++ lat ++ "_" ++ lon ++ "_" ++ units ++ "_" ++ lang
  match getCachedData s cacheKey false now with
  | some cached => ⟨.ok cached, false, s⟩
  | none =>
    match fetchResult with
    | .ok processedData =>
      ⟨.ok processedData, true, setCachedData s cacheKey processedData now⟩
    | .error err =>
      match getCachedData s cacheKey true now with
      | some staleCache => ⟨.ok staleCache, true, s⟩
      | none => ⟨.error (he err), true, s⟩

end WeatherService

namespace OpenMeteoService

/-- `this.cacheTimeout = 5 * 60 * 1000` of `OpenMeteoService`. -/
def cacheTimeout : Nat := 300000

/-- The `this.requestCache` map of `OpenMeteoService`; search payloads are
lists of transformed location results. -/
structure OMState (τ : Type) where
  requestCache : List (String × TimedEntry (List τ))
deriving DecidableEq, Repr

/-- Outcome of one `searchLocations` call. -/
structure SearchOutcome (τ : Type) where
  result : Except String (List τ)
  fetchAttempted : Bool
  finalState : OMState τ
deriving DecidableEq, Repr

/-- The guard `!query || query.length < 2` (`none` models an absent
`query` argument; the empty string is falsy). -/
def queryTooShort : Option String → Bool
  | none => true
  | some q => q == "" || q.length < 2

/-- `searchLocations(query)` of `OpenMeteoService`: return `[]` for an
absent or short query; otherwise serve a fresh cached result, or run the
search request (the `fetch`, `response.ok` check, `response.json()` and
`data.map(this.transformLocationResult)` pipeline is abstracted as the
oracle `fetchResult` since the upstream response shape is opaque), cache
and return it; a pipeline error is rethrown wrapped. -/
def searchLocations {τ : Type} (s : OMState τ) (query : Option String)
    (fetchResult : Except String (List τ)) (now : Nat) : SearchOutcome τ :=
  if queryTooShort query then ⟨.ok [], false, s⟩
  else
    let q := (match query with | some q => q | none => "")
    let cacheKey := "search_" ++ q.toLower
    let serveFetch : SearchOutcome τ :=
      match fetchResult with
      | .ok transformedData =>
        ⟨.ok transformedData, true,
         ⟨alPut s.requestCache cacheKey ⟨transformedData, now⟩⟩⟩
      | .error e => ⟨.error ("Failed to search locations: " ++ e), true, s⟩
    match alGet s.requestCache cacheKey with
    | some cached =>
      if now - cached.timestamp < cacheTimeout then ⟨.ok cached.data, false, s⟩
      else serveFetch
    | none => serveFetch

end OpenMeteoService

namespace GeocodingService

/-- `searchLocations(query)` of `GeocodingService`: same short-query guard,
then delegate to `openMeteoService.searchLocations`; an error from the
delegate is rethrown wrapped. -/
def searchLocations {τ : Type} (s : OpenMeteoService.OMState τ)
    (query : Option String) (fetchResult : Except String (List τ)) (now : Nat) :
    OpenMeteoService.SearchOutcome τ :=
  if OpenMeteoService.queryTooShort query then ⟨.ok [], false, s⟩
  else
    let r := OpenMeteoService.searchLocations s query fetchResult now
    match r.result with
    | .ok results => ⟨.ok results, r.fetchAttempted, r.finalState⟩
    | .error e =>
      ⟨.error ("Failed to search locations: " ++ e), r.fetchAttempted, r.finalState⟩

end GeocodingService

/-- Trace of one `retry(fn, options)` call from `error.js`: the settled
result (`Except (Option ε)` because the dead `throw lastError` after the
loop would throw `undefined` when no error was recorded), the number of
invocations of `fn`, and the total virtual time spent in backoff waits. -/
structure RetryTrace (ε α : Type) where
  result : Except (Option ε) α
  calls : Nat
  waited : Nat
deriving Repr

/-- The `for (let attempt = 0; attempt <= retries; attempt++)` loop of
`retry`. `fuel` is the number of loop iterations still permitted by the
loop bound (`retries + 1 - attempt` at every reachable call); exhausting
it models the loop condition failing, after which the source throws
`lastError`. The operation is deterministic per attempt: `op i` is the
outcome of its `i`-th invocation. -/
def retryLoop {ε α : Type} (op : Nat → Except ε α)
    (retries delay backoff : Nat) (condition : ε → Bool)
    (lastError : Option ε) (attempt : Nat) : Nat → RetryTrace ε α
  | 0 => ⟨.error lastError, 0, 0⟩
  | fuel + 1 =>
    match op attempt with
    | .ok a => ⟨.ok a, 1, 0⟩
    | .error e =>
      if attempt == retries || !condition e then ⟨.error (some e), 1, 0⟩
      else
        let waitTime := delay * backoff ^ attempt
        let rest := retryLoop op retries delay backoff condition (some e) (attempt + 1) fuel
        ⟨rest.result, rest.calls + 1, rest.waited + waitTime⟩

/-- `retry(fn, {retries, delay, backoff, condition})` from `error.js`
(defaults `retries = 3`, `delay = 1000`, `backoff = 2`,
`condition = () => true` are supplied by callers of this model). -/
def retry {ε α : Type} (op : Nat → Except ε α) (retries delay backoff : Nat)
    (condition : ε → Bool) : RetryTrace ε α :=
  retryLoop op retries delay backoff condition none 0 (retries + 1)

/-- Modelled from the spec: the error classification of §7. The repository
imports `fetchWithTimeout`/`retryRequest` from `api-helpers.js`, which is
not under `src/`; the spec's `NetworkError`, `TimeoutError` and
`UpstreamError(status)` kinds are modelled here from its words. -/
inductive SpecError where
  | network
  | timeout
  | upstream (status : Nat)
deriving DecidableEq, Repr

/-- Modelled from the spec: the transient-error retry predicate of §7 —
network and timeout errors are retryable, and `UpstreamError(status)` is
"Retryable only for 5xx/429; NOT retryable for 4xx (other than 429)". -/
def isRetryableError : SpecError → Bool
  | .network => true
  | .timeout => true
  | .upstream status => (500 ≤ status && status ≤ 599) || status == 429

/-- The state reached from a freshly initialized healthy cache after
`set("a", 10, "weather")` at time 0. -/
def nsDemoS1 : CacheService.CacheState Nat :=
  CacheService.ignoreThrown
    (CacheService.set CacheService.noFail (CacheService.initState CacheService.noFail 0)
      "a" 10 "weather" none (fun _ => 0) 0)
    (CacheService.initState CacheService.noFail 0)

/-- … then `set("a", 20, "location")` at time 0. -/
def nsDemoS2 : CacheService.CacheState Nat :=
  CacheService.ignoreThrown
    (CacheService.set CacheService.noFail nsDemoS1 "a" 20 "location" none (fun _ => 0) 0)
    nsDemoS1

/-- … then `clearType("weather")`. -/
def nsDemoS3 : CacheService.CacheState Nat :=
  CacheService.ignoreThrown (CacheService.clearType CacheService.noFail nsDemoS2 "weather")
    nsDemoS2

/-- A healthy-backend cache state holding one expired entry
(`"a"`, expires at 10) and one live entry (`"b"`, expires at 100) in the
weather store, evaluated at time 50. -/
def cleanupDemo : CacheService.CacheState Nat :=
  ⟨false,
   ⟨[("a", ⟨"a", 1, "weather", 0, .fin 10, 4⟩), ("b", ⟨"b", 2, "weather", 0, .fin 100, 4⟩)],
    [], [], []⟩,
   []⟩

theorem alGet_put_same {β : Type} (l : List (String × β)) (k : String) (v : β) :
    alGet (alPut l k v) k = some v := by
  simp [alPut, alGet]

theorem alGet_erase_same {β : Type} (l : List (String × β)) (k : String) :
    alGet (alErase l k) k = none := by
  induction l with
  | nil => simp [alErase, alGet]
  | cons h t ih =>
    obtain ⟨k', v'⟩ := h
    by_cases hk : k' = k <;> simp [alErase, alGet, hk, ih]

theorem alErase_idem {β : Type} (l : List (String × β)) (k : String) :
    alErase (alErase l k) k = alErase l k := by
  induction l with
  | nil => simp [alErase]
  | cons h t ih =>
    obtain ⟨k', v'⟩ := h
    by_cases hk : k' = k <;> simp [alErase, hk, ih]

theorem alErase_put {β : Type} (l : List (String × β)) (k : String) (v : β) :
    alErase (alPut l k v) k = alErase l k := by
  simp [alPut, alErase, alErase_idem]

theorem alGet_erase_put {β : Type} (l : List (String × β)) (k : String) (v : β) :
    alGet (alErase (alPut l k v) k) k = none := by
  rw [alErase_put]; exact alGet_erase_same l k

theorem length_alPut {β : Type} (l : List (String × β)) (k : String) (v : β) :
    (alPut l k v).length = (alErase l k).length + 1 := by
  simp [alPut]

theorem CacheService.IDB.getSet_same {δ : Type} (db : CacheService.IDB δ)
    (n : CacheService.StoreName) (l : List (String × CacheEntry δ)) :
    (db.setObjectStore n l).getObjectStore n = l := by
  cases n <;> rfl

theorem CacheService.IDB.setSet_same {δ : Type} (db : CacheService.IDB δ) (n : CacheService.StoreName)
    (l1 l2 : List (String × CacheEntry δ)) :
    (db.setObjectStore n l1).setObjectStore n l2 = db.setObjectStore n l2 := by
  cases n <;> cases db <;> rfl

/-- An entry freshly written at `now` with any resolved TTL is not expired
at `now` itself (`expires` is `now + ttl` or `Infinity`). -/
theorem entryExpired_fresh {δ : Type} (e : CacheEntry δ) (now : Nat) (ttl : TimeVal)
    (h : e.expires = CacheService.computeExpires now ttl) :
    CacheService.entryExpired e now = false := by
  rcases ttl with n | _
  · simp only [CacheService.entryExpired, h, CacheService.computeExpires,
      decide_eq_false_iff_not]
    omega
  · simp only [CacheService.entryExpired, h, CacheService.computeExpires]

theorem expirationTimes_lookup_mem (type : String) :
    CacheService.expirationTimes.lookup type = none ∨
    ∃ t, CacheService.expirationTimes.lookup type = some t ∧
      (t = .fin 600000 ∨ t = .fin 1800000 ∨ t = .fin 3600000 ∨
       t = .fin 86400000 ∨ t = .inf) := by
  simp only [CacheService.expirationTimes, List.lookup]
  repeat' split
  all_goals simp_all

/-- C2: a stale-allowed read (`getCachedData` with `allowStale = true`)
performed after the entry's TTL has elapsed still returns the originally
written payload unchanged (while the standard read at the same time
already misses). -/
theorem getCachedData_allowStale_returns_payload {δ : Type}
    (s : WeatherService.WSState δ) (key : String) (v : δ) (now now' : Nat)
    (hstale : now + WeatherService.cacheTimeout < now') :
    WeatherService.getCachedData (WeatherService.setCachedData s key v now)
        key true now' = some v ∧
    WeatherService.getCachedData (WeatherService.setCachedData s key v now)
        key false now' = none := by
  constructor
  · simp [WeatherService.getCachedData, WeatherService.setCachedData, alGet_put_same]
  · simp [WeatherService.getCachedData, WeatherService.setCachedData, alGet_put_same]
    omega

theorem getCachedData_allowStale_witness :
    WeatherService.getCachedData
        (WeatherService.setCachedData (⟨[]⟩ : WeatherService.WSState Nat) "k" 5 0)
        "k" true 600001 = some 5 ∧
    WeatherService.getCachedData
        (WeatherService.setCachedData (⟨[]⟩ : WeatherService.WSState Nat) "k" 5 0)
        "k" false 600001 = none :=
  getCachedData_allowStale_returns_payload ⟨[]⟩ "k" 5 0 600001 (by norm_num [WeatherService.cacheTimeout])

/-- C8: when the per-service request cache holds an entry for the computed
cache key whose age is strictly less than the fixed 5-minute TTL,
`getCurrentWeather` returns the cached payload and never starts the
network fetch pipeline, leaving the cache unchanged. -/
theorem getCurrentWeather_fresh_hit {δ : Type} (s : WeatherService.WSState δ)
    (lat lon units lang : String) (c : TimedEntry δ)
    (fetchResult : Except String δ) (he : String → String) (now : Nat)
    (hc : alGet s.cache ("current_" ++ lat ++ "_" ++ lon ++ "_" ++ units ++ "_" ++ lang)
            = some c)
    (hfresh : now - c.timestamp < WeatherService.cacheTimeout) :
    WeatherService.getCurrentWeather s lat lon units lang fetchResult he now
      = ⟨.ok c.data, false, s⟩ := by
  simp only [WeatherService.getCurrentWeather, WeatherService.getCachedData, hc]
  rw [if_neg (by omega)]

theorem getCurrentWeather_fresh_hit_witness :
    WeatherService.getCurrentWeather
        (⟨[("current_1_2_metric_en", ⟨42, 100⟩)]⟩ : WeatherService.WSState Nat)
        "1" "2" "metric" "en" (.error "offline") id 200
      = ⟨.ok 42, false, ⟨[("current_1_2_metric_en", ⟨42, 100⟩)]⟩⟩ :=
  getCurrentWeather_fresh_hit ⟨[("current_1_2_metric_en", ⟨42, 100⟩)]⟩
    "1" "2" "metric" "en" ⟨42, 100⟩ (.error "offline") id 200
    (by decide) (by norm_num [WeatherService.cacheTimeout])

/-- C10: `searchLocations(query)` returns an empty array, with no network
request and no cache read or write, whenever the query is absent or
shorter than 2 characters — both in `OpenMeteoService` and in the
`GeocodingService` wrapper. -/
theorem searchLocations_short_query {τ : Type} (s : OpenMeteoService.OMState τ)
    (query : Option String) (fetchResult : Except String (List τ)) (now : Nat)
    (hq : OpenMeteoService.queryTooShort query = true) :
    OpenMeteoService.searchLocations s query fetchResult now = ⟨.ok [], false, s⟩ ∧
    GeocodingService.searchLocations s query fetchResult now = ⟨.ok [], false, s⟩ := by
  constructor
  · simp [OpenMeteoService.searchLocations, hq]
  · simp [GeocodingService.searchLocations, hq]

theorem searchLocations_short_query_witness :
    OpenMeteoService.searchLocations (⟨[]⟩ : OpenMeteoService.OMState Nat)
        (some "a") (.ok [7]) 0 = ⟨.ok [], false, ⟨[]⟩⟩ ∧
    GeocodingService.searchLocations (⟨[]⟩ : OpenMeteoService.OMState Nat)
        (some "a") (.ok [7]) 0 = ⟨.ok [], false, ⟨[]⟩⟩ :=
  searchLocations_short_query ⟨[]⟩ (some "a") (.ok [7]) 0 (by decide)

/-- C9: in `CacheService.set` a falsy `customTTL` (`0` or absent) is
ignored in favor of the type's default TTL, an unrecognized type falls
back to the 10-minute weather default, and consequently a `customTTL` of
`0` can never produce an entry that expires immediately: its expiry is
either `Infinity` or at least 10 minutes past the write time. -/
theorem set_falsy_ttl_uses_default {δ : Type} (fb : CacheService.Failures)
    (s : CacheService.CacheState δ) (key : String) (v : δ) (type : String)
    (sz : δ → Nat) (now : Nat) :
    CacheService.set fb s key v type (some (.fin 0)) sz now
      = CacheService.set fb s key v type none sz now ∧
    (CacheService.expirationTimes.lookup type = none →
      CacheService.resolveTTL (some (.fin 0)) type = CacheService.weatherTTL) ∧
    ((∃ n, 600000 ≤ n ∧
        CacheService.computeExpires now (CacheService.resolveTTL (some (.fin 0)) type)
          = .fin (now + n)) ∨
      CacheService.computeExpires now (CacheService.resolveTTL (some (.fin 0)) type)
        = .inf) := by
  refine ⟨rfl, ?_, ?_⟩
  · intro h
    simp [CacheService.resolveTTL, CacheService.jsOrTTL, CacheService.ttlTruthy, h]
  · rcases expirationTimes_lookup_mem type with h | ⟨t, h, ht⟩
    · left
      refine ⟨600000, le_refl _, ?_⟩
      simp [CacheService.resolveTTL, CacheService.jsOrTTL, CacheService.ttlTruthy, h,
        CacheService.weatherTTL, CacheService.computeExpires]
    · rcases ht with rfl | rfl | rfl | rfl | rfl
      · exact Or.inl ⟨600000, le_refl _, by
          simp [CacheService.resolveTTL, CacheService.jsOrTTL, CacheService.ttlTruthy, h,
            CacheService.computeExpires]⟩
      · exact Or.inl ⟨1800000, by norm_num, by
          simp [CacheService.resolveTTL, CacheService.jsOrTTL, CacheService.ttlTruthy, h,
            CacheService.computeExpires]⟩
      · exact Or.inl ⟨3600000, by norm_num, by
          simp [CacheService.resolveTTL, CacheService.jsOrTTL, CacheService.ttlTruthy, h,
            CacheService.computeExpires]⟩
      · exact Or.inl ⟨86400000, by norm_num, by
          simp [CacheService.resolveTTL, CacheService.jsOrTTL, CacheService.ttlTruthy, h,
            CacheService.computeExpires]⟩
      · exact Or.inr (by
          simp [CacheService.resolveTTL, CacheService.jsOrTTL, CacheService.ttlTruthy, h,
            CacheService.computeExpires])

theorem set_falsy_ttl_uses_default_witness :
    CacheService.resolveTTL (some (.fin 0)) "bogus" = CacheService.weatherTTL :=
  (set_falsy_ttl_uses_default CacheService.noFail
      (⟨false, CacheService.emptyIDB, []⟩ : CacheService.CacheState Nat)
      "k" 0 "bogus" (fun _ => 0) 0).2.1 (by decide)

/-- C6: when the operation fails with an `UpstreamError` carrying a 4xx
status other than 429 (such as 404), `retry` under the transient-error
predicate throws that error immediately: exactly one invocation of the
operation and no backoff waiting. -/
theorem retry_4xx_short_circuit {α : Type} (op : Nat → Except SpecError α)
    (retries delay backoff : Nat) (status : Nat)
    (h4 : 400 ≤ status) (h5 : status < 500) (h429 : status ≠ 429)
    (hop : op 0 = .error (.upstream status)) :
    retry op retries delay backoff isRetryableError
      = ⟨.error (some (.upstream status)), 1, 0⟩ := by
  have hcond : isRetryableError (.upstream status) = false := by
    simp only [isRetryableError, Bool.or_eq_false_iff, Bool.and_eq_false_iff,
      decide_eq_false_iff_not, beq_eq_false_iff_ne, ne_eq]
    exact ⟨Or.inl (by omega), h429⟩
  simp [retry, retryLoop, hop, hcond]

theorem retry_4xx_short_circuit_witness :
    retry (fun _ => (Except.error (SpecError.upstream 404) : Except SpecError Nat))
        3 1000 2 isRetryableError
      = ⟨.error (some (.upstream 404)), 1, 0⟩ :=
  retry_4xx_short_circuit (fun _ => .error (.upstream 404)) 3 1000 2 404
    (by norm_num) (by norm_num) (by norm_num) rfl

theorem retryLoop_all_fail {ε α : Type} (op : Nat → Except ε α) (f : Nat → ε)
    (hf : ∀ i, op i = .error (f i)) (condition : ε → Bool)
    (hcond : ∀ e, condition e = true) (retries delay backoff : Nat) :
    ∀ fuel attempt lastError, attempt + fuel = retries + 1 → 1 ≤ fuel →
      (retryLoop op retries delay backoff condition lastError attempt fuel).calls = fuel ∧
      (retryLoop op retries delay backoff condition lastError attempt fuel).result
        = .error (some (f retries)) := by
  intro fuel
  induction fuel with
  | zero => intro attempt lastError _ h1; omega
  | succ fuel ih =>
    intro attempt lastError hsum _
    rw [retryLoop, hf attempt]
    simp only [hcond (f attempt), Bool.not_true, Bool.or_false]
    by_cases hat : attempt = retries
    · have hfuel : fuel = 0 := by omega
      subst hat hfuel
      simp
    · have hbeq : (attempt == retries) = false := by simp [hat]
      have hge : 1 ≤ fuel := by omega
      have := ih (attempt + 1) (some (f attempt)) (by omega) hge
      simp only [hbeq, if_false, Bool.false_eq_true]
      exact ⟨by simp [this.1], by simp [this.2]⟩

/-- C5: with `retries = 3`, initial delay 1000 ms and backoff multiplier 2,
an operation that fails on its first two invocations and succeeds on the
third makes `retry` return the success on the third invocation after
waiting exactly 1000 + 2000 ms in total; and for an operation that always
fails, with the retry predicate accepting every error, `retry` throws the
final error after exactly `retries + 1` invocations. -/
theorem retry_backoff_schedule {ε α : Type} (op : Nat → Except ε α)
    (e0 e1 : ε) (a : α) (condition : ε → Bool)
    (h0 : op 0 = .error e0) (h1 : op 1 = .error e1) (h2 : op 2 = .ok a)
    (hc0 : condition e0 = true) (hc1 : condition e1 = true)
    (op2 : Nat → Except ε α) (f : Nat → ε) (condition2 : ε → Bool)
    (hf : ∀ i, op2 i = .error (f i)) (hcond2 : ∀ e, condition2 e = true)
    (retries delay backoff : Nat) :
    retry op 3 1000 2 condition = ⟨.ok a, 3, 3000⟩ ∧
    (retry op2 retries delay backoff condition2).calls = retries + 1 ∧
    (retry op2 retries delay backoff condition2).result = .error (some (f retries)) := by
  refine ⟨?_, ?_, ?_⟩
  · norm_num [retry, retryLoop, h0, h1, h2, hc0, hc1]
  · exact (retryLoop_all_fail op2 f hf condition2 hcond2 retries delay backoff
      (retries + 1) 0 none (by omega) (by omega)).1
  · exact (retryLoop_all_fail op2 f hf condition2 hcond2 retries delay backoff
      (retries + 1) 0 none (by omega) (by omega)).2

/-- C3 (bug evidence): `set("a", 10, "weather")` followed by
`set("a", 20, "location")` leaves a single live entry, not two — the
`stores` map key is `"locations"`, so `getStore("location")` falls back to
the weather store and the second write overwrites the first; the
dedicated `location-data` store stays empty, a weather read now returns
the location payload, and after `clearType("weather")` the location entry
is gone as well. -/
theorem namespace_collision_on_location :
    (CacheService.getStats nsDemoS2 (fun _ => 0) 0).totalEntries = 1 ∧
    nsDemoS2.db.locationData = [] ∧
    CacheService.get CacheService.noFail nsDemoS2 "a" "weather" 0 = .ok (some 20, nsDemoS2) ∧
    CacheService.get CacheService.noFail nsDemoS3 "a" "location" 0 = .ok (none, nsDemoS3) := by
  refine ⟨by decide, by decide, by decide, by decide⟩

/-- C7 (bug evidence): the IndexedDB-path `cleanupExpiredEntries` sweep
does delete exactly the expired entries and a second sweep would remove
`0`, but the function's return value is `undefined` (`none`) on this path
— it never returns the count of removed entries. -/
theorem cleanupExpiredEntries_returns_undefined :
    (CacheService.cleanupExpiredEntries cleanupDemo 50).1 = none ∧
    ((CacheService.cleanupExpiredEntries cleanupDemo 50).2).db.weatherData
      = [("b", ⟨"b", 2, "weather", 0, .fin 100, 4⟩)] ∧
    (CacheService.sweepIDB cleanupDemo.db 50).1 = 1 ∧
    (CacheService.sweepIDB ((CacheService.cleanupExpiredEntries cleanupDemo 50).2).db 50).1
      = 0 ∧
    (CacheService.cleanupExpiredEntries
        (CacheService.cleanupExpiredEntries cleanupDemo 50).2 50).1 = none := by
  refine ⟨by decide, by decide, by decide, by decide, by decide⟩

/-- C4: for every injected backend failure profile, none of the public
`CacheService` operations (`set`, `get`, `delete`, `clearType`,
`clearAll`) rejects; a failed IndexedDB write falls back to a
localStorage write of the same entry; and after a failover — the backend
failing to open, or both IndexedDB reads and writes failing — a `get`
immediately following a `set` still returns the written value. -/
theorem cache_backend_failures_not_propagated {δ : Type} (fb : CacheService.Failures)
    (s : CacheService.CacheState δ) (key type : String) (v : δ)
    (customTTL : Option TimeVal) (sz : δ → Nat) (now : Nat) :
    CacheService.jsSettled (CacheService.set fb s key v type customTTL sz now) = true ∧
    CacheService.jsSettled (CacheService.get fb s key type now) = true ∧
    CacheService.jsSettled (CacheService.delete fb s key type) = true ∧
    CacheService.jsSettled (CacheService.clearType fb s type) = true ∧
    CacheService.jsSettled (CacheService.clearAll fb s) = true ∧
    (fb.putFails = true → s.useLocalStorage = false →
      ∀ s1, CacheService.set fb s key v type customTTL sz now = .ok s1 →
        alGet s1.ls ("cache_" ++ key)
          = some ⟨key, v, type, now,
              CacheService.computeExpires now (CacheService.resolveTTL customTTL type),
              sz v⟩) ∧
    (fb.openFails = true →
      ∀ s1, CacheService.set fb (CacheService.initState fb now) key v type customTTL sz now
              = .ok s1 →
        CacheService.get fb s1 key type now = .ok (some v, s1)) ∧
    (fb.putFails = true → fb.getFails = true → s.useLocalStorage = false →
      ∀ s1, CacheService.set fb s key v type customTTL sz now = .ok s1 →
        CacheService.get fb s1 key type now = .ok (some v, s1)) := by
  refine ⟨?_, ?_, ?_, ?_, ?_, ?_, ?_, ?_⟩
  · cases hls : s.useLocalStorage
    · cases hpf : fb.putFails <;>
        simp [CacheService.set, CacheService.idbPut, CacheService.jsSettled, hls, hpf]
    · simp [CacheService.set, CacheService.jsSettled, hls]
  · cases hls : s.useLocalStorage
    · cases hgf : fb.getFails
      · simp only [CacheService.get, CacheService.idbGet, hls, hgf,
          Bool.false_eq_true, if_false]
        cases alGet (s.db.getObjectStore (CacheService.getStore type)) key
        · simp [CacheService.jsSettled]
        · simp only []
          split <;> simp [CacheService.jsSettled]
      · simp [CacheService.get, CacheService.idbGet, CacheService.jsSettled, hls, hgf]
    · simp [CacheService.get, CacheService.jsSettled, hls]
  · cases hls : s.useLocalStorage
    · cases hdf : fb.deleteFails <;>
        simp [CacheService.delete, CacheService.idbDelete, CacheService.jsSettled, hls, hdf]
    · simp [CacheService.delete, CacheService.jsSettled, hls]
  · cases hls : s.useLocalStorage
    · cases hcf : fb.clearFails <;>
        simp [CacheService.clearType, CacheService.idbClear, CacheService.jsSettled, hls, hcf]
    · simp [CacheService.clearType, CacheService.jsSettled, hls]
  · cases hls : s.useLocalStorage
    · cases hcf : fb.clearFails <;>
        simp [CacheService.clearAll, CacheService.idbClear, CacheService.jsSettled, hls, hcf]
    · simp [CacheService.clearAll, CacheService.jsSettled, hls]
  · intro hpf hls s1 hset1
    simp only [CacheService.set, CacheService.idbPut, hpf, hls, Bool.false_eq_true,
      if_false, if_true, Except.ok.injEq] at hset1
    subst hset1
    exact alGet_put_same _ _ _
  · intro hof s1 hset1
    simp only [CacheService.initState, hof, if_true, CacheService.set,
      CacheService.setLocalStorage, if_false, Except.ok.injEq] at hset1
    subst hset1
    have hfr := entryExpired_fresh
      (⟨key, v, type, now,
        CacheService.computeExpires now (CacheService.resolveTTL customTTL type), sz v⟩ :
        CacheEntry δ)
      now (CacheService.resolveTTL customTTL type) rfl
    simp [CacheService.get, CacheService.getLocalStorage, alGet_put_same, hfr]
  · intro hpf hgf hls s1 hset1
    simp only [CacheService.set, CacheService.idbPut, hpf, hls, Bool.false_eq_true,
      if_false, if_true, Except.ok.injEq] at hset1
    subst hset1
    have hfr := entryExpired_fresh
      (⟨key, v, type, now,
        CacheService.computeExpires now (CacheService.resolveTTL customTTL type), sz v⟩ :
        CacheEntry δ)
      now (CacheService.resolveTTL customTTL type) rfl
    simp [CacheService.get, CacheService.idbGet, CacheService.getLocalStorage,
      CacheService.setLocalStorage, alGet_put_same, hls, hgf, hfr]

theorem cache_backend_failures_witness :
    CacheService.get (δ := Nat) ⟨true, true, true, true, true⟩
        ⟨true, CacheService.emptyIDB,
          [("cache_" ++ "k", ⟨"k", 7, "weather", 3, .fin 600003, 0⟩)]⟩
        "k" "weather" 3
      = .ok (some 7,
          ⟨true, CacheService.emptyIDB,
            [("cache_" ++ "k", ⟨"k", 7, "weather", 3, .fin 600003, 0⟩)]⟩) :=
  (cache_backend_failures_not_propagated ⟨true, true, true, true, true⟩
      (⟨true, CacheService.emptyIDB, []⟩ : CacheService.CacheState Nat)
      "k" "weather" 7 none (fun _ => 0) 3).2.2.2.2.2.2.1 rfl
    ⟨true, CacheService.emptyIDB,
      [("cache_" ++ "k", ⟨"k", 7, "weather", 3, .fin 600003, 0⟩)]⟩
    (by decide)

/-- C1: with the IndexedDB backend healthy, a standard `get(key, type)`
immediately after `set(key, v, type, ttl)` returns `v`; a standard get
after the current time has advanced strictly past the computed expiry
returns `null`, lazily deletes the entry from its object store, and the
entry no longer counts in `getStats` (the total drops by one). -/
theorem cache_set_get_and_expiry {δ : Type} (s : CacheService.CacheState δ)
    (key : String) (v : δ) (type : String) (customTTL : Option TimeVal)
    (sz : δ → Nat) (itemLen : CacheEntry δ → Nat) (now now2 e : Nat)
    (hmode : s.useLocalStorage = false)
    (s1 : CacheService.CacheState δ)
    (hset : CacheService.set CacheService.noFail s key v type customTTL sz now = .ok s1)
    (hexp : CacheService.computeExpires now (CacheService.resolveTTL customTTL type)
              = .fin e)
    (hlt : e < now2) :
    CacheService.get CacheService.noFail s1 key type now = .ok (some v, s1) ∧
    ∃ s2, CacheService.get CacheService.noFail s1 key type now2 = .ok (none, s2) ∧
      alGet (s2.db.getObjectStore (CacheService.getStore type)) key = none ∧
      (CacheService.getStats s1 itemLen now2).totalEntries
        = (CacheService.getStats s2 itemLen now2).totalEntries + 1 := by
  simp only [CacheService.set, CacheService.idbPut, CacheService.noFail, hmode,
    Bool.false_eq_true, if_false, Except.ok.injEq] at hset
  subst hset
  have hfresh := entryExpired_fresh
    (⟨key, v, type, now,
      CacheService.computeExpires now (CacheService.resolveTTL customTTL type), sz v⟩ :
      CacheEntry δ)
    now (CacheService.resolveTTL customTTL type) rfl
  have hstale : CacheService.entryExpired
      (⟨key, v, type, now,
        CacheService.computeExpires now (CacheService.resolveTTL customTTL type), sz v⟩ :
        CacheEntry δ) now2 = true := by
    simp only [CacheService.entryExpired, hexp, decide_eq_true_eq]
    omega
  refine ⟨?_, ?_⟩
  · simp [CacheService.get, CacheService.idbGet, CacheService.noFail,
      CacheService.IDB.getSet_same, alGet_put_same, hmode, hfresh]
  · refine ⟨⟨s.useLocalStorage,
      s.db.setObjectStore (CacheService.getStore type)
        (alErase (s.db.getObjectStore (CacheService.getStore type)) key), s.ls⟩, ?_, ?_, ?_⟩
    · simp [CacheService.get, CacheService.idbGet, CacheService.idbDelete,
        CacheService.delete, CacheService.noFail, CacheService.ignoreThrown,
        CacheService.IDB.getSet_same, CacheService.IDB.setSet_same, alGet_put_same,
        alErase_put, hmode, hstale]
    · simp [CacheService.IDB.getSet_same, alGet_erase_same]
    · have hlen := length_alPut (s.db.getObjectStore (CacheService.getStore type)) key
        (⟨key, v, type, now,
          CacheService.computeExpires now (CacheService.resolveTTL customTTL type), sz v⟩ :
          CacheEntry δ)
      cases hst : CacheService.getStore type <;>
        simp_all [CacheService.getStats, CacheService.getStoreStats,
          CacheService.IDB.setObjectStore, CacheService.IDB.getObjectStore, hmode] <;>
        omega

theorem cache_set_get_and_expiry_witness :
    CacheService.get (δ := Nat) CacheService.noFail
        ⟨false, ⟨[("k", ⟨"k", 42, "weather", 5, .fin 600005, 0⟩)], [], [], []⟩, []⟩
        "k" "weather" 5
      = .ok (some 42,
          ⟨false, ⟨[("k", ⟨"k", 42, "weather", 5, .fin 600005, 0⟩)], [], [], []⟩, []⟩) ∧
    ∃ s2, CacheService.get (δ := Nat) CacheService.noFail
        ⟨false, ⟨[("k", ⟨"k", 42, "weather", 5, .fin 600005, 0⟩)], [], [], []⟩, []⟩
        "k" "weather" 600006 = .ok (none, s2) ∧
      alGet (s2.db.getObjectStore (CacheService.getStore "weather")) "k" = none ∧
      (CacheService.getStats
          ⟨false, ⟨[("k", ⟨"k", 42, "weather", 5, .fin 600005, 0⟩)], [], [], []⟩, []⟩
          (fun _ => 0) 600006).totalEntries
        = (CacheService.getStats s2 (fun _ => 0) 600006).totalEntries + 1 :=
  cache_set_get_and_expiry
    ⟨false, CacheService.emptyIDB, []⟩ "k" 42 "weather" none (fun _ => 0) (fun _ => 0)
    5 600006 600005 rfl
    ⟨false, ⟨[("k", ⟨"k", 42, "weather", 5, .fin 600005, 0⟩)], [], [], []⟩, []⟩
    (by decide) (by decide) (by decide)

theorem retry_backoff_schedule_witness :
    retry (fun i => if i < 2 then (Except.error i : Except Nat Nat) else .ok 42)
        3 1000 2 (fun _ => true) = ⟨.ok 42, 3, 3000⟩ ∧
    (retry (fun i => (Except.error i : Except Nat Nat)) 3 1000 2 (fun _ => true)).calls = 4 ∧
    (retry (fun i => (Except.error i : Except Nat Nat)) 3 1000 2 (fun _ => true)).result
      = .error (some 3) :=
  retry_backoff_schedule
    (fun i => if i < 2 then (Except.error i : Except Nat Nat) else .ok 42)
    0 1 42 (fun _ => true) (by decide) (by decide) (by decide) rfl rfl
    (fun i => .error i) (fun i => i) (fun _ => true) (fun _ => rfl) (fun _ => rfl)
    3 1000 2
